import Mathlib

/-!
Shallow embedding of the stsh job-control shell (src/stsh.cc; the complete
variant of the file is src/unnamed/part_000) together with proofs about its
builtins, its SIGCHLD reaper, and its pipeline launcher createJob.

Pids, job numbers and pgids are modelled as Int (pid_t is a signed int);
wait statuses are Nat; C strings are Lean String / List Char.  The job,
process and job-table classes live in headers that are not part of the
repository snapshot, so those records and their operations are modelled
from the spec (each such definition says so in its doc comment); everything
else is translated directly from the source of stsh.cc.
-/

/-- POSIX signal numbers used by the shell, as an enumeration. -/
inductive Sig where
  | SIGKILL
  | SIGSTOP
  | SIGCONT
  | SIGINT
  | SIGCHLD
  | SIGTSTP
  | SIGQUIT
deriving DecidableEq

/-- STSHProcessState: the three process states stsh.cc assigns (kRunning,
kStopped, kTerminated). -/
inductive STSHProcessState where
  | kRunning
  | kStopped
  | kTerminated
deriving DecidableEq

/-- STSHJobState: the two live-job states stsh.cc assigns (kForeground,
kBackground). -/
inductive STSHJobState where
  | kForeground
  | kBackground
deriving DecidableEq

/-- Modelled from the spec: the Process record of stsh-process.h (the header is
not in the snapshot): immutable pid plus mutable state; the argv tokens are
irrelevant to the claims and omitted. -/
structure STSHProcess where
  pid : Int
  state : STSHProcessState
deriving DecidableEq

/-- Modelled from the spec: the Job record of stsh-job.h (the header is not in
the snapshot): job number, process-group id, job state, ordered processes. -/
structure STSHJob where
  num : Int
  pgid : Int
  state : STSHJobState
  processes : List STSHProcess
deriving DecidableEq

/-- Modelled from the spec: the JobTable of stsh-job-list.h, owning all jobs. -/
structure STSHJobList where
  jobs : List STSHJob
deriving DecidableEq

/-- Modelled from the spec: Job.getProcess — the member of this job with the
given pid. -/
def STSHJob.getProcess (j : STSHJob) (pid : Int) : Option STSHProcess :=
  j.processes.find? (fun p => p.pid == pid)

/-- Modelled from the spec: Job.containsProcess. -/
def STSHJob.containsProcess (j : STSHJob) (pid : Int) : Bool :=
  (j.getProcess pid).isSome

/-- Modelled from the spec: JobTable.getJob — lookup by job number. -/
def STSHJobList.getJob (jl : STSHJobList) (num : Int) : Option STSHJob :=
  jl.jobs.find? (fun j => j.num == num)

/-- Modelled from the spec: JobTable.containsJob. -/
def STSHJobList.containsJob (jl : STSHJobList) (num : Int) : Bool :=
  (jl.getJob num).isSome

/-- Modelled from the spec: JobTable.getJobWithProcess — reverse lookup by pid. -/
def STSHJobList.getJobWithProcess (jl : STSHJobList) (pid : Int) : Option STSHJob :=
  jl.jobs.find? (fun j => j.containsProcess pid)

/-- Modelled from the spec: JobTable.containsProcess. -/
def STSHJobList.containsProcess (jl : STSHJobList) (pid : Int) : Bool :=
  (jl.getJobWithProcess pid).isSome

/-- Modelled from the spec: JobTable.hasForegroundJob. -/
def STSHJobList.hasForegroundJob (jl : STSHJobList) : Bool :=
  jl.jobs.any (fun j => j.state == STSHJobState.kForeground)

/-- Modelled from the spec: Job.setState on the job with the given number,
lifted to the table. -/
def STSHJobList.setJobState (jl : STSHJobList) (num : Int) (st : STSHJobState) :
    STSHJobList :=
  ⟨jl.jobs.map (fun j => if j.num == num then { j with state := st } else j)⟩

/-- Modelled from the spec: the update the reaper performs through
Job.getProcess(pid).setState(st), lifted to the table. -/
def STSHJobList.setProcessState (jl : STSHJobList) (pid : Int)
    (st : STSHProcessState) : STSHJobList :=
  ⟨jl.jobs.map (fun j =>
    if j.containsProcess pid then
      { j with processes :=
          j.processes.map (fun p => if p.pid == pid then { p with state := st } else p) }
    else j)⟩

/-- Modelled from the spec: every member of the job is Terminated. -/
def STSHJob.allTerminated (j : STSHJob) : Bool :=
  j.processes.all (fun p => p.state == STSHProcessState.kTerminated)

/-- Modelled from the spec: every non-Terminated member of the job is Stopped. -/
def STSHJob.allLiveStopped (j : STSHJob) : Bool :=
  j.processes.all (fun p =>
    p.state == STSHProcessState.kTerminated || p.state == STSHProcessState.kStopped)

/-- Modelled from the spec: JobTable.synchronize — remove the job once every
member is Terminated; demote a Foreground job whose remaining members are all
Stopped to Background. -/
def STSHJobList.synchronize (jl : STSHJobList) (num : Int) : STSHJobList :=
  ⟨jl.jobs.filterMap (fun j =>
    if j.num == num then
      if j.allTerminated then none
      else if j.state == STSHJobState.kForeground && j.allLiveStopped then
        some { j with state := STSHJobState.kBackground }
      else some j
    else some j)⟩

/-- Leading decimal digits of a char list: accumulated value and the rest. -/
def digitsVal : List Char → Nat → Nat × List Char
  | [], acc => (acc, [])
  | c :: cs, acc =>
    if c.isDigit then digitsVal cs (10 * acc + (c.toNat - 48)) else (acc, c :: cs)

/-- C strtol with base 10: skip leading blanks, optional sign, then digits;
returns the value together with the end pointer position.  When no digits are
consumed the end pointer is the original string and the value is 0. -/
def strtol10 (s : List Char) : Int × List Char :=
  match s.dropWhile (fun c => c == ' ' || c == '\t' || c == '\n') with
  | '-' :: rest =>
    if (rest.headD ' ').isDigit then
      ((-((digitsVal rest 0).1) : Int), (digitsVal rest 0).2)
    else (0, s)
  | '+' :: rest =>
    if (rest.headD ' ').isDigit then
      (((digitsVal rest 0).1 : Int), (digitsVal rest 0).2)
    else (0, s)
  | t =>
    if (t.headD ' ').isDigit then
      (((digitsVal t 0).1 : Int), (digitsVal t 0).2)
    else (0, s)

/-- C atoi: the value a base-10 strtol produces. -/
def atoi (s : String) : Int := (strtol10 s.data).1

/-- Observable side effects of the builtins: signals sent via kill, terminal
handoffs via tcsetpgrp, sigprocmask changes, and the sigsuspend wait loop. -/
inductive Eff where
  | kill (pid : Int) (sig : Sig)
  | tcsetpgrp (pgid : Int)
  | blockMask
  | unblockMask
  | waitLoop
deriving DecidableEq

/-- Whether an effect list contains any terminal handoff (tcsetpgrp call). -/
def hasTcsetpgrp (effs : List Eff) : Bool :=
  effs.any (fun e => match e with | Eff.tcsetpgrp _ => true | _ => false)

/-- A C switch statement WITHOUT break statements: control enters at the first
arm whose label matches the index and then falls through every later arm, so
the last arm's assignment wins; when no label matches, the initial
(uninitialized) value survives. -/
def switchNoBreak {α : Type} (arms : List (Nat × α)) (index : Nat) (init : α) : α :=
  (arms.dropWhile (fun arm => arm.1 != index)).foldl (fun _ arm => arm.2) init

/-- The killer signal computed by SHCBuiltin for builtin index 4 (slay),
5 (halt), 6 (cont): three case labels, assignments, and no break.
Sig.SIGQUIT stands in for the uninitialized int, never produced for the
indices 4, 5, 6 that handleBuiltin passes. -/
def SHCkiller (index : Nat) : Sig :=
  switchNoBreak [(4, Sig.SIGKILL), (5, Sig.SIGSTOP), (6, Sig.SIGCONT)] index Sig.SIGQUIT

/-- The builtin name string computed by SHCBuiltin, again by a break-less
switch; the empty string is the default-constructed std::string. -/
def SHCbuiltinName (index : Nat) : String :=
  switchNoBreak [(4, "slay"), (5, "halt"), (6, "cont")] index ""

/-- fgBuiltin of stsh.cc: validate the argument (atoi plus a strtol
trailing-garbage and sign check), require the job, block the mask, SIGCONT
every member (setting the job state to kForeground when a kill succeeds —
modelled as: whenever the job has a member), synchronize, sigsuspend until no
foreground job remains, unblock.  Errors are the thrown STSHException
messages; on success the new table and the effect trace are returned. -/
def fgBuiltin (first : Option String) (jl : STSHJobList) :
    Except String (STSHJobList × List Eff) :=
  match first with
  | none => .error "Usage: fg <jobid>."
  | some s =>
    if (0 < s.length ∧ 0 < (strtol10 s.data).2.length) ∨ (strtol10 s.data).1 < 0 then
      .error "Usage: fg <jobid>."
    else
      match jl.getJob (atoi s) with
      | none => .error ("fg " ++ toString (atoi s) ++ ":  No such job.")
      | some job =>
        .ok (((if job.processes.isEmpty then jl
               else jl.setJobState job.num STSHJobState.kForeground).synchronize job.num),
             Eff.blockMask ::
               (job.processes.map (fun p => Eff.kill p.pid Sig.SIGCONT) ++
                [Eff.waitLoop, Eff.unblockMask]))

/-- bgBuiltin of stsh.cc: validate the argument, require the job, SIGCONT
every member, synchronize.  No mask is blocked and no state is set. -/
def bgBuiltin (first : Option String) (jl : STSHJobList) :
    Except String (STSHJobList × List Eff) :=
  match first with
  | none => .error "Usage: bg <jobid>."
  | some s =>
    if (0 < s.length ∧ 0 < (strtol10 s.data).2.length) ∨ (strtol10 s.data).1 < 0 then
      .error "Usage: bg <jobid>."
    else
      match jl.getJob (atoi s) with
      | none => .error ("bg " ++ toString (atoi s) ++ ":  No such job.")
      | some job =>
        .ok (jl.synchronize job.num,
             job.processes.map (fun p => Eff.kill p.pid Sig.SIGCONT))

/-- SHCBuiltin of stsh.cc (slay / halt / cont): computes killer and builtin
name via the break-less switches; with one argument, validates it, looks up
the job containing that pid, and kills EVERY member of that job; with two
arguments, performs no strtol validation, requires the job with number
atoi(first), requires a process with pid atoi(second) inside it, and kills
that process. -/
def SHCBuiltin (index : Nat) (first second : Option String) (jl : STSHJobList) :
    Except String (List Eff) :=
  match first with
  | none => .error ("Usage: " ++ SHCbuiltinName index ++ " <jobid> <index> | <pid>.")
  | some f =>
    match second with
    | none =>
      if (0 < f.length ∧ 0 < (strtol10 f.data).2.length) ∨ (strtol10 f.data).1 < 0 then
        .error "Usage: bg <jobid>."
      else
        match jl.getJobWithProcess (atoi f) with
        | none => .error ("No process with pid " ++ toString (atoi f) ++ ".")
        | some job =>
          .ok (job.processes.map (fun p => Eff.kill p.pid (SHCkiller index)))
    | some s =>
      match jl.getJob (atoi f) with
      | none => .error ("No job with id of " ++ toString (atoi f) ++ ".")
      | some job =>
        match job.getProcess (atoi s) with
        | none => .error ("No process pid " ++ toString (atoi s) ++ ".")
        | some proc => .ok [Eff.kill proc.pid (SHCkiller index)]

/-- WIFEXITED(status) as glibc computes it: the low seven bits are zero. -/
def wifexited (s : Nat) : Bool := decide (s % 128 = 0)

/-- WIFSIGNALED(status): the low seven bits are neither 0 nor 0x7f. -/
def wifsignaled (s : Nat) : Bool := decide (s % 128 ≠ 0 ∧ s % 128 ≠ 127)

/-- WIFSTOPPED(status): the low byte is 0x7f. -/
def wifstopped (s : Nat) : Bool := decide (s % 256 = 127)

/-- WIFCONTINUED(status): the status is 0xffff. -/
def wifcontinued (s : Nat) : Bool := decide (s = 65535)

/-- The state variable of sigchldHandler after its four independent if
statements, in source order (EXITED, CONTINUED, SIGNALED, STOPPED); none
models the uninitialized variable when no macro matches. -/
def classify (s : Nat) : Option STSHProcessState :=
  let st1 := if wifexited s = true then some STSHProcessState.kTerminated
             else (none : Option STSHProcessState)
  let st2 := if wifcontinued s = true then some STSHProcessState.kRunning else st1
  let st3 := if wifsignaled s = true then some STSHProcessState.kTerminated else st2
  if wifstopped s = true then some STSHProcessState.kStopped else st3

/-- The two job-table operations sigchldHandler performs per reaped event. -/
inductive HAct where
  | setStatePid (pid : Int) (st : STSHProcessState)
  | syncJob (num : Int)
deriving DecidableEq

/-- sigchldHandler of stsh.cc: loop on waitpid(-1, &status,
WNOHANG|WUNTRACED|WCONTINUED) until it returns 0 or negative; the kernel's
pending events are modelled as the list the successive waitpid calls return,
the empty list standing for the terminating 0/negative return.  For each
event: classify the status, look up the owning job (the source then asserts
job.containsProcess(pid) and errors if the pid is unknown), set the process
state, synchronize.  The returned trace records the table mutations in
order. -/
def sigchldHandler : List (Int × Nat) → STSHJobList →
    Except String (STSHJobList × List HAct)
  | [], jl => .ok (jl, [])
  | (pid, status) :: rest, jl =>
    match classify status with
    | none => .error "uninitialized process state"
    | some st =>
      match jl.getJobWithProcess pid with
      | none => .error "assertion failed: job.containsProcess(pid)"
      | some job =>
        (sigchldHandler rest ((jl.setProcessState pid st).synchronize job.num)).map
          (fun r => (r.1, HAct.setStatePid pid st :: HAct.syncJob job.num :: r.2))

/-- Parent-side actions of createJob, in program order. -/
inductive PAct where
  | addJob (st : STSHJobState)
  | mkPipe (i : Nat)
  | fork (pid : Int)
  | addProcess (pid : Int)
  | setpgid (pid : Int)
  | closeParentPipe (i : Nat)
  | printBG
  | tcsetpgrp (pgid : Int)
  | blockMask
  | waitLoop
  | unblockMask
deriving DecidableEq

/-- The parent-side action trace of createJob in stsh.cc, for a pipeline whose
fork calls return the given pids: addJob; create the count-1 pipes; for each
command fork, then Job.addProcess, then setpgid; close every pipe in the
parent; print the background announcement when backgrounded; when the table
has a foreground job (for a freshly added job: exactly when the launch is a
foreground launch, nothing having been reaped yet) give the terminal to the
job's pgid; then unconditionally give the terminal back to the shell's own
pgid; only then block {SIGCHLD, SIGINT, SIGTSTP, SIGCONT}, sigsuspend while a
foreground job remains, and unblock. -/
def createJobTrace (pids : List Int) (background : Bool) (jobPgid shellPgid : Int) :
    List PAct :=
  [PAct.addJob (if background then STSHJobState.kBackground else STSHJobState.kForeground)]
    ++ (List.range (pids.length - 1)).map PAct.mkPipe
    ++ pids.flatMap (fun pid => [PAct.fork pid, PAct.addProcess pid, PAct.setpgid pid])
    ++ (List.range (pids.length - 1)).map PAct.closeParentPipe
    ++ (if background then [PAct.printBG] else [PAct.tcsetpgrp jobPgid])
    ++ [PAct.tcsetpgrp shellPgid, PAct.blockMask, PAct.waitLoop, PAct.unblockMask]

/-- The foreground process group of the controlling terminal at the moment the
sigsuspend wait loop is entered: the last tcsetpgrp before the waitLoop marker
(initially the shell owns the terminal). -/
def termPgidAtWait (tr : List PAct) (shellPgid : Int) : Int :=
  (tr.takeWhile (fun a => !(a == PAct.waitLoop))).foldl
    (fun t a => match a with | PAct.tcsetpgrp g => g | _ => t) shellPgid

/-- Whether the signal mask {SIGCHLD, SIGINT, SIGTSTP, SIGCONT} is blocked at
the point just before the first occurrence of action a in the trace. -/
def maskBlockedBefore (tr : List PAct) (a : PAct) : Bool :=
  (tr.takeWhile (fun x => !(x == a))).foldl
    (fun b x => match x with
      | PAct.blockMask => true
      | PAct.unblockMask => false
      | _ => b) false

/-- The pids the job table knows (via Job.addProcess) at the point just before
the first occurrence of action a in the trace. -/
def tablePidsBefore (tr : List PAct) (a : PAct) : List Int :=
  (tr.takeWhile (fun x => !(x == a))).filterMap
    (fun x => match x with | PAct.addProcess p => some p | _ => none)

/-- File-descriptor operations a forked child of createJob performs on the
pipe matrix fds (rows indexed 0 .. count-1, of which rows 0 .. count-2 hold
pipes) and on the redirection fds. -/
inductive FdOp where
  | closeRead (row : Nat)
  | closeWrite (row : Nat)
  | dupToStdin (row : Nat)
  | dupToStdout (row : Nat)
  | closePair (row : Nat)
  | dupInFile
  | dupOutFile
deriving DecidableEq

/-- The fd wiring and cleanup sequence child i of a count-command pipeline
executes in createJob of stsh.cc: the count == 1 case only applies the file
redirections; otherwise the first child closes the read end of pipe 0, dups
its write end onto stdout and calls Close(fds[count]); the last child closes
the write end of pipe i-1, dups its read end onto stdin and calls
Close(fds[0]); middle children wire both sides and call Close(fds[0]) and
Close(fds[count-1]); finally every child runs Close(fds[j]) for
j = 1 .. count-3. -/
def childFdOps (i count : Nat) (hasIn hasOut : Bool) : List FdOp :=
  if count == 1 then
    (if hasIn then [FdOp.dupInFile] else []) ++ (if hasOut then [FdOp.dupOutFile] else [])
  else
    ((if i == 0 then
        (if hasIn then [FdOp.dupInFile] else [])
          ++ [FdOp.closeRead 0, FdOp.dupToStdout 0, FdOp.closePair count]
      else if i == count - 1 then
        (if hasOut then [FdOp.dupOutFile] else [])
          ++ [FdOp.closeWrite (i - 1), FdOp.dupToStdin (i - 1), FdOp.closePair 0]
      else
        [FdOp.closeWrite (i - 1), FdOp.dupToStdin (i - 1),
         FdOp.closeRead i, FdOp.dupToStdout i,
         FdOp.closePair 0, FdOp.closePair (count - 1)])
      ++ (List.range (count - 2)).filterMap
           (fun j => if 1 ≤ j then some (FdOp.closePair j) else none))

/-- The row of the pipe matrix an fd operation touches, if any. -/
def fdOpRow : FdOp → Option Nat
  | FdOp.closeRead r => some r
  | FdOp.closeWrite r => some r
  | FdOp.dupToStdin r => some r
  | FdOp.dupToStdout r => some r
  | FdOp.closePair r => some r
  | _ => none

/-- All rows of the pipe matrix child i touches. -/
def childRowsAccessed (i count : Nat) (hasIn hasOut : Bool) : List Nat :=
  (childFdOps i count hasIn hasOut).filterMap fdOpRow

/-- The diagnostic the child constructs when execvp fails (stsh.cc:
throw STSHException(str + ": Command not found.")). -/
def execFailMessage (cmd : String) : String := cmd ++ ": Command not found."

/-- The catch block at the bottom of main: the exception text is printed to
stderr; then, when the catching process is not the shell (getpid() differs
from the recorded stshpid), the process calls exit(0).  The result is some
status when the process terminates there and none when the REPL continues
with its next iteration. -/
def replCatch (curPid shellPid : Int) : Option Nat :=
  if curPid ≠ shellPid then some 0 else none

/-- Outcome for a forked child whose execvp failed: the STSHException thrown
in createJob propagates to the catch in main, so the child prints the
diagnostic and then follows replCatch. -/
def childExecFail (cmd : String) (childPid shellPid : Int) : String × Option Nat :=
  (execFailMessage cmd, replCatch childPid shellPid)

deriving instance DecidableEq for Except

/-- A two-process background job (pids 20 and 21) in a one-job table, used to
evaluate the single-argument slay path. -/
def jlC7 : STSHJobList :=
  ⟨[⟨1, 20, STSHJobState.kBackground,
     [⟨20, STSHProcessState.kRunning⟩, ⟨21, STSHProcessState.kRunning⟩]⟩]⟩

/-- A two-process background job (pids 10 and 11), job number 1. -/
def jobC7b : STSHJob :=
  ⟨1, 10, STSHJobState.kBackground,
   [⟨10, STSHProcessState.kRunning⟩, ⟨11, STSHProcessState.kRunning⟩]⟩

/-- The table holding only jobC7b. -/
def jlC7b : STSHJobList := ⟨[jobC7b]⟩

/-- A one-process job (pid 2), job number 1, used for the two-argument slay
path. -/
def jlC9 : STSHJobList :=
  ⟨[⟨1, 2, STSHJobState.kBackground, [⟨2, STSHProcessState.kRunning⟩]⟩]⟩

/-- A one-process background job (pid 10), job number 1, to run fg against. -/
def jlFg : STSHJobList :=
  ⟨[⟨1, 10, STSHJobState.kBackground, [⟨10, STSHProcessState.kRunning⟩]⟩]⟩

/-- A one-process background job (pid 7), job number 3. -/
def jobW : STSHJob := ⟨3, 7, STSHJobState.kBackground, [⟨7, STSHProcessState.kRunning⟩]⟩

/-- The table holding only jobW. -/
def jlW : STSHJobList := ⟨[jobW]⟩

/-- A wait status whose low byte is 0x7f has 0x7f as its low seven bits too. -/
theorem stopped_mod128 {s : Nat} (h : s % 256 = 127) : s % 128 = 127 := by
  have h2 := Nat.mod_mod_of_dvd s (by norm_num : (128 : Nat) ∣ 256)
  omega

/-- On a WIFEXITED status the handler's if chain yields kTerminated. -/
theorem classify_of_exited {s : Nat} (h : wifexited s = true) :
    classify s = some STSHProcessState.kTerminated := by
  have h0 : s % 128 = 0 := by simpa [wifexited] using h
  have e2 : wifcontinued s = false := by
    simp only [wifcontinued, decide_eq_false_iff_not]
    omega
  have e3 : wifsignaled s = false := by
    simp only [wifsignaled, decide_eq_false_iff_not]
    omega
  have e4 : wifstopped s = false := by
    simp only [wifstopped, decide_eq_false_iff_not]
    intro hx
    have := stopped_mod128 hx
    omega
  simp only [classify, h, e2, e3, e4]
  simp

/-- On a WIFSIGNALED status the handler's if chain yields kTerminated. -/
theorem classify_of_signaled {s : Nat} (h : wifsignaled s = true) :
    classify s = some STSHProcessState.kTerminated := by
  have h0 : s % 128 ≠ 0 ∧ s % 128 ≠ 127 := by simpa [wifsignaled] using h
  have e4 : wifstopped s = false := by
    simp only [wifstopped, decide_eq_false_iff_not]
    intro hx
    exact h0.2 (stopped_mod128 hx)
  simp only [classify, h, e4]
  simp

/-- On a WIFSTOPPED status the handler's if chain yields kStopped. -/
theorem classify_of_stopped {s : Nat} (h : wifstopped s = true) :
    classify s = some STSHProcessState.kStopped := by
  simp only [classify, h]
  simp

/-- On a WIFCONTINUED status the handler's if chain yields kRunning. -/
theorem classify_of_continued {s : Nat} (h : wifcontinued s = true) :
    classify s = some STSHProcessState.kRunning := by
  have h0 : s = 65535 := by simpa [wifcontinued] using h
  subst h0
  rfl

/-- Job.getProcess returns a process carrying exactly the requested pid. -/
theorem getProcess_pid_eq {j : STSHJob} {q : Int} {pr : STSHProcess}
    (h : j.getProcess q = some pr) : pr.pid = q := by
  unfold STSHJob.getProcess at h
  have h2 := List.find?_some h
  simpa using h2

/-- Claim C6: the SIGCHLD handler loops on the non-blocking waitpid until no
event remains (the empty event list yields the table unchanged); for each
reported event it maps a normal exit and a death by signal to kTerminated, a
stop to kStopped and a continue to kRunning, sets that state on the process
with the reaped pid, and synchronizes the owning job immediately after each
state mutation, as the action trace records. -/
theorem sigchld_reaper_correct (pid : Int) (status : Nat) (rest : List (Int × Nat))
    (jl : STSHJobList) (st : STSHProcessState) (job : STSHJob)
    (hst : classify status = some st)
    (hjob : jl.getJobWithProcess pid = some job) :
    (wifexited status = true → st = STSHProcessState.kTerminated) ∧
    (wifsignaled status = true → st = STSHProcessState.kTerminated) ∧
    (wifstopped status = true → st = STSHProcessState.kStopped) ∧
    (wifcontinued status = true → st = STSHProcessState.kRunning) ∧
    sigchldHandler ((pid, status) :: rest) jl =
      Except.map
        (fun r => (r.1, HAct.setStatePid pid st :: HAct.syncJob job.num :: r.2))
        (sigchldHandler rest ((jl.setProcessState pid st).synchronize job.num)) ∧
    sigchldHandler [] jl = Except.ok (jl, []) := by
  refine ⟨?_, ?_, ?_, ?_, ?_, rfl⟩
  · intro h
    have hc := classify_of_exited h
    rw [hst] at hc
    exact Option.some.inj hc
  · intro h
    have hc := classify_of_signaled h
    rw [hst] at hc
    exact Option.some.inj hc
  · intro h
    have hc := classify_of_stopped h
    rw [hst] at hc
    exact Option.some.inj hc
  · intro h
    have hc := classify_of_continued h
    rw [hst] at hc
    exact Option.some.inj hc
  · simp only [sigchldHandler, hst, hjob]

/-- Claim C6 witness: the handler applied to one exited child (pid 7,
status 0) of the job in jlW. -/
theorem sigchld_reaper_correct_witness :
    classify 0 = some STSHProcessState.kTerminated ∧
    jlW.getJobWithProcess 7 = some jobW ∧
    ((wifexited 0 = true → STSHProcessState.kTerminated = STSHProcessState.kTerminated) ∧
     (wifsignaled 0 = true → STSHProcessState.kTerminated = STSHProcessState.kTerminated) ∧
     (wifstopped 0 = true → STSHProcessState.kTerminated = STSHProcessState.kStopped) ∧
     (wifcontinued 0 = true → STSHProcessState.kTerminated = STSHProcessState.kRunning) ∧
     sigchldHandler ((7, 0) :: []) jlW =
       Except.map
         (fun r => (r.1, HAct.setStatePid 7 STSHProcessState.kTerminated ::
             HAct.syncJob jobW.num :: r.2))
         (sigchldHandler []
           ((jlW.setProcessState 7 STSHProcessState.kTerminated).synchronize jobW.num)) ∧
     sigchldHandler [] jlW = Except.ok (jlW, [])) :=
  ⟨by decide, by decide,
   sigchld_reaper_correct 7 0 [] jlW STSHProcessState.kTerminated jobW (by decide) (by decide)⟩

/-- Claim C7 amended: for slay/halt/cont, with one argument P that is the pid
of a process known to the table, the signal is delivered to every process of
the job containing P (not only to P); with two arguments, the second is
interpreted as a pid (not a process index) that must belong to the job
numbered atoi(first), and the signal is delivered only to that process. -/
theorem shc_signal_targets_amended (idx : Nat) (s t t2 : String) (P N Q : Int)
    (jl : STSHJobList) (job jobN : STSHJob)
    (_hidx : idx = 4 ∨ idx = 5 ∨ idx = 6)
    (hs : strtol10 s.data = (P, []))
    (hP : 0 ≤ P)
    (hjob : jl.getJobWithProcess P = some job)
    (ht : atoi t = N)
    (hjobN : jl.getJob N = some jobN)
    (hQ : atoi t2 = Q)
    (hQin : jobN.containsProcess Q = true) :
    SHCBuiltin idx (some s) none jl =
      Except.ok (job.processes.map (fun p => Eff.kill p.pid (SHCkiller idx))) ∧
    SHCBuiltin idx (some t) (some t2) jl =
      Except.ok [Eff.kill Q (SHCkiller idx)] := by
  have hatoi : atoi s = P := by rw [atoi, hs]
  have hcond : ¬ ((0 < s.length ∧ 0 < (strtol10 s.data).2.length) ∨ (strtol10 s.data).1 < 0) := by
    rw [hs]
    rintro (⟨h1, h2⟩ | h3)
    · simp at h2
    · simp at h3
      omega
  unfold STSHJob.containsProcess at hQin
  obtain ⟨pr, hpr⟩ := Option.isSome_iff_exists.mp hQin
  have hprq : pr.pid = Q := getProcess_pid_eq hpr
  constructor
  · simp only [SHCBuiltin]
    rw [if_neg hcond, hatoi]
    simp only [hjob]
  · simp only [SHCBuiltin]
    rw [ht, hQ]
    simp only [hjobN, hpr, hprq]

/-- Claim C7 amended, witness: slay 10 on the table jlC7b signals both members
of the containing job; slay 1 11 signals only pid 11 of job 1. -/
theorem shc_signal_targets_amended_witness :
    ((4 : Nat) = 4 ∨ (4 : Nat) = 5 ∨ (4 : Nat) = 6) ∧
    strtol10 ("10" : String).data = ((10 : Int), []) ∧
    (0 : Int) ≤ 10 ∧
    jlC7b.getJobWithProcess 10 = some jobC7b ∧
    atoi "1" = 1 ∧
    jlC7b.getJob 1 = some jobC7b ∧
    atoi "11" = 11 ∧
    jobC7b.containsProcess 11 = true ∧
    (SHCBuiltin 4 (some "10") none jlC7b =
       Except.ok (jobC7b.processes.map (fun p => Eff.kill p.pid (SHCkiller 4))) ∧
     SHCBuiltin 4 (some "1") (some "11") jlC7b =
       Except.ok [Eff.kill 11 (SHCkiller 4)]) :=
  ⟨Or.inl rfl, by decide, by decide, by decide, by decide, by decide, by decide, by decide,
   shc_signal_targets_amended 4 "10" "1" "11" 10 1 11 jlC7b jobC7b jobC7b (Or.inl rfl)
     (by decide) (by decide) (by decide) (by decide) (by decide) (by decide) (by decide)⟩

/-- Claim C7 counterexample: invoked as slay 20 against a job whose members
are pids 20 and 21, SHCBuiltin signals pid 21 as well, so the signal is NOT
delivered to exactly the one process with the given pid. -/
theorem shc_single_arg_signals_whole_job :
    SHCBuiltin 4 (some "20") none jlC7 =
      Except.ok [Eff.kill 20 Sig.SIGCONT, Eff.kill 21 Sig.SIGCONT] ∧
    ((21 : Int) = 20 → False) := by decide

/-- Claim C9 amended: the job-number argument of fg and bg and the pid
argument of the one-argument slay/halt/cont form must parse as non-negative
integers with no trailing non-numeric characters; a violating argument is
rejected with a usage diagnostic before any signal is sent or any table state
changes (the error result carries no effect and leaves the table untouched).
The two-argument slay/halt/cont form performs no such validation. -/
theorem builtin_numeric_validation_amended (s : String) (jl : STSHJobList) (idx : Nat)
    (hbad : (0 < s.length ∧ 0 < (strtol10 s.data).2.length) ∨ (strtol10 s.data).1 < 0) :
    fgBuiltin (some s) jl = Except.error "Usage: fg <jobid>." ∧
    bgBuiltin (some s) jl = Except.error "Usage: bg <jobid>." ∧
    SHCBuiltin idx (some s) none jl = Except.error "Usage: bg <jobid>." := by
  refine ⟨?_, ?_, ?_⟩
  · simp only [fgBuiltin]
    rw [if_pos hbad]
  · simp only [bgBuiltin]
    rw [if_pos hbad]
  · simp only [SHCBuiltin]
    rw [if_pos hbad]

/-- Claim C9 amended, witness: the argument 3x (trailing garbage) is rejected
by fg, bg, and one-argument slay alike. -/
theorem builtin_numeric_validation_amended_witness :
    ((0 < ("3x" : String).length ∧ 0 < (strtol10 ("3x" : String).data).2.length) ∨
      (strtol10 ("3x" : String).data).1 < 0) ∧
    (fgBuiltin (some "3x") ⟨[]⟩ = Except.error "Usage: fg <jobid>." ∧
     bgBuiltin (some "3x") ⟨[]⟩ = Except.error "Usage: bg <jobid>." ∧
     SHCBuiltin 4 (some "3x") none ⟨[]⟩ = Except.error "Usage: bg <jobid>.") :=
  ⟨Or.inl (by decide),
   builtin_numeric_validation_amended "3x" ⟨[]⟩ 4 (Or.inl (by decide))⟩

/-- Claim C9 counterexample: slay 1x 2x — both numeric arguments carry
trailing non-numeric garbage, yet no usage diagnostic is raised and the
signal is sent to pid 2 (atoi silently yields 1 and 2). -/
theorem shc_two_arg_accepts_garbage :
    (strtol10 ("1x" : String).data).2 = ['x'] ∧
    (strtol10 ("2x" : String).data).2 = ['x'] ∧
    SHCBuiltin 4 (some "1x") (some "2x") jlC9 = Except.ok [Eff.kill 2 Sig.SIGCONT] := by
  decide

/-- Claim C1: the two switch statements of SHCBuiltin fall through without
break, so slay (index 4) and halt (index 5) both end up with killer SIGCONT —
not SIGKILL and SIGSTOP — and with builtin name cont, which is the name their
usage diagnostic prints. -/
theorem shc_fallthrough_sends_sigcont :
    SHCkiller 4 = Sig.SIGCONT ∧ SHCkiller 5 = Sig.SIGCONT ∧ SHCkiller 6 = Sig.SIGCONT ∧
    SHCbuiltinName 4 = "cont" ∧ SHCbuiltinName 5 = "cont" ∧
    SHCBuiltin 4 none none ⟨[]⟩ = Except.error "Usage: cont <jobid> <index> | <pid>." ∧
    (Sig.SIGCONT = Sig.SIGKILL → False) ∧ (Sig.SIGCONT = Sig.SIGSTOP → False) := by
  decide

/-- Claim C2: for a foreground launch (single child pid 100, job pgid 100,
shell pgid 1) createJob does execute tcsetpgrp to the job's pgid, but then
hands the terminal back to the shell BEFORE the sigsuspend wait loop, so at
the moment the foreground wait begins the terminal's foreground process group
is the shell's pgid 1, not the job's pgid 100. -/
theorem terminal_reclaimed_before_wait :
    PAct.tcsetpgrp 100 ∈ createJobTrace [100] false 100 1 ∧
    termPgidAtWait (createJobTrace [100] false 100 1) 1 = 1 ∧
    ((1 : Int) = 100 → False) := by decide

/-- Claim C3: in the createJob launch trace for a two-command foreground
pipeline, the signal set is NOT blocked at the first fork nor at either
addProcess call; the blockMask action occurs only later (just before the wait
loop). -/
theorem sigmask_blocked_only_after_forks :
    maskBlockedBefore (createJobTrace [100, 101] false 100 1) (PAct.fork 100) = false ∧
    maskBlockedBefore (createJobTrace [100, 101] false 100 1) (PAct.addProcess 100) = false ∧
    maskBlockedBefore (createJobTrace [100, 101] false 100 1) (PAct.addProcess 101) = false ∧
    PAct.blockMask ∈ createJobTrace [100, 101] false 100 1 := by decide

/-- Claim C4: a child whose execvp failed prints the diagnostic
"nosuchprog: Command not found." and terminates through the catch block in
main without another REPL iteration — but via exit(0), i.e. with exit status
0 rather than the non-zero status the claim requires. -/
theorem exec_failure_child_exits_zero :
    childExecFail "nosuchprog" 100 1 = (execFailMessage "nosuchprog", some 0) ∧
    execFailMessage "nosuchprog" = "nosuchprog: Command not found." := by decide

/-- Claim C5: fg 1 on an existing job blocks the mask, SIGCONTs the member,
makes the job Foreground, synchronizes and waits, and fg 7 on a missing job
raises "fg 7:  No such job." without mutation — but the effect trace contains
no tcsetpgrp at all: the controlling terminal is never transferred to the
job's pgid nor reclaimed afterwards. -/
theorem fg_performs_no_terminal_transfer :
    fgBuiltin (some "1") jlFg =
      Except.ok (⟨[⟨1, 10, STSHJobState.kForeground, [⟨10, STSHProcessState.kRunning⟩]⟩]⟩,
        [Eff.blockMask, Eff.kill 10 Sig.SIGCONT, Eff.waitLoop, Eff.unblockMask]) ∧
    hasTcsetpgrp [Eff.blockMask, Eff.kill 10 Sig.SIGCONT, Eff.waitLoop, Eff.unblockMask] = false ∧
    fgBuiltin (some "7") jlFg = Except.error "fg 7:  No such job." := by decide

/-- Claim C8: the first child of a two-command pipeline executes
Close(fds[2]) although the fd matrix has rows 0 and 1 only (and only row 0
holds a pipe): the accessed row index 2 is out of bounds. -/
theorem child_pipe_index_out_of_bounds :
    childRowsAccessed 0 2 false false = [0, 0, 2] ∧
    FdOp.closePair 2 ∈ childFdOps 0 2 false false ∧
    ¬ (2 < 2) := by decide

/-- Claim C10: between fork and addProcess in the launch trace the signal set
is still unblocked and the table does not yet contain the child's pid 100, so
a SIGCHLD delivered at that point reaps a pid unknown to the table and the
handler's getJobWithProcess lookup — the source's
assert(job.containsProcess(pid)) — fails. -/
theorem reaper_can_fire_before_addProcess :
    PAct.fork 100 ∈ (createJobTrace [100] false 100 1).takeWhile
      (fun x => !(x == PAct.addProcess 100)) ∧
    maskBlockedBefore (createJobTrace [100] false 100 1) (PAct.addProcess 100) = false ∧
    ((100 : Int) ∈ tablePidsBefore (createJobTrace [100] false 100 1) (PAct.addProcess 100) → False) ∧
    sigchldHandler [(100, 0)] ⟨[⟨1, 0, STSHJobState.kForeground, []⟩]⟩ =
      Except.error "assertion failed: job.containsProcess(pid)" := by decide
